import Mathlib

/-!
Verification of the temperature_sensor polling script (src/main.py).

The script discovers two families of sensors (1-Wire temperature probes and
BME680 environmental sensors), resolves each sensor's mqtt identity from
configuration and the hostname, and repeatedly polls all sensors, publishing
one flattened batch of (topic, payload) messages per cycle.

Strings are modelled as lists of characters; hardware drivers are modelled as
explicit environments (functions describing what each driver call returns);
exceptions are modelled with Except/Option.
-/

set_option maxHeartbeats 1000000

namespace TempSensor

/-- Strings, modelled as lists of characters. -/
abbrev Str := List Char

/-! ## Topic naming: `BaseSensor.topic_for_attribute` (main.py:28-29)

The mqtt topic format template from the configuration is modelled as a list
of tokens: literal runs of text, the id placeholder and the attribute
placeholder.  Python's `str.format` replaces each placeholder occurrence by
the corresponding keyword argument and keeps literal text unchanged.
(The identifier `attr` stands for the attribute name throughout.) -/

/-- One token of the topic format template. -/
inductive FmtTok
  | lit (s : Str)
  | idTok
  | attrTok
deriving DecidableEq

/-- Substitution of a single template token. -/
def renderTok (mqtt_id attr : Str) : FmtTok → Str
  | .lit s => s
  | .idTok => mqtt_id
  | .attrTok => attr

/-- Render a whole template with the given id and attribute name,
concatenating the substituted tokens in order (Python `str.format`). -/
def renderFmt (mqtt_id attr : Str) : List FmtTok → Str
  | [] => []
  | t :: rest => renderTok mqtt_id attr t ++ renderFmt mqtt_id attr rest

/-- `BaseSensor.topic_for_attribute`: substitute the sensor's mqtt id and the
attribute name into the configured topic format. -/
def topic_for_attribute (topic_format : List FmtTok) (mqtt_id attr : Str) : Str :=
  renderFmt mqtt_id attr topic_format

/-- Number of occurrences of a token in a template. -/
def countTok (t : FmtTok) : List FmtTok → Nat
  | [] => 0
  | x :: rest => (if x = t then 1 else 0) + countTok t rest

/-- Total length of the literal text of a template. -/
def litLen : List FmtTok → Nat
  | [] => 0
  | .lit s :: rest => s.length + litLen rest
  | .idTok :: rest => litLen rest
  | .attrTok :: rest => litLen rest

/-! ## BME680 acquisition and stabilization (`BME680Sensor.topics_and_values`,
main.py:86-100)

Each loop iteration evaluates `self._sensor.get_sensor_data()` (whose truthy
result we call `dataPresent`) and then reads `self._sensor.data.heat_stable`.
The device driver is modelled as a function from the attempt index (0-based,
counting `get_sensor_data` calls) to the outcome of that acquisition: the
`dataPresent` flag and the contents of the driver's `data` registers after
the call. -/

/-- The driver's `data` registers after one acquisition. -/
structure BMEData where
  heat_stable : Bool
  temperature : Int
  humidity : Int
  pressure : Int
  gas_resistance : Int
deriving DecidableEq

/-- Outcome of one `get_sensor_data` call. -/
structure Attempt where
  dataPresent : Bool
  data : BMEData
deriving DecidableEq

/-- `attempts = 60` (main.py:88). -/
def attempts : Nat := 60

/-- An attempt succeeds when it reports data present and the heat-stable
flag (`if data and stable` in main.py:90). -/
def success (a : Attempt) : Bool := a.dataPresent && a.data.heat_stable

/-- The retry loop of `topics_and_values` (main.py:89-94): starting at
attempt index `k` with `n` attempts remaining, return the `data` registers
of the first successful attempt (or `none` if every remaining attempt
fails), paired with the number of `sleep(0.5)` calls performed.  The source
sleeps after every failed attempt, including the last one. -/
def stabilize (driver : Nat → Attempt) : Nat → Nat → Option BMEData × Nat
  | _, 0 => (none, 0)
  | k, n + 1 =>
    if success (driver k) then (some (driver k).data, 0)
    else ((stabilize driver (k + 1) n).1, (stabilize driver (k + 1) n).2 + 1)

/-- Attribute-name strings used by the BME680 sensor. -/
def tempAttr : Str := "temperature".toList

def humAttr : Str := "humidity".toList

def presAttr : Str := "pressure".toList

def gasAttr : Str := "gas_resistance".toList

/-- `BME680Sensor.topics_and_values` (main.py:86-100): run the stabilization
loop; on failure of all 60 attempts return the empty list, otherwise return
the four (topic, value) pairs, all taken from the `data` registers left by
the final (successful) acquisition. -/
def bme_topics_and_values (tmpl : List FmtTok) (mqtt_id : Str)
    (driver : Nat → Attempt) : List (Str × Int) :=
  match (stabilize driver 0 attempts).1 with
  | none => []
  | some d =>
    [ (topic_for_attribute tmpl mqtt_id tempAttr, d.temperature),
      (topic_for_attribute tmpl mqtt_id humAttr, d.humidity),
      (topic_for_attribute tmpl mqtt_id presAttr, d.pressure),
      (topic_for_attribute tmpl mqtt_id gasAttr, d.gas_resistance) ]

/-! ## Configuration snapshot (main.py:21-22)

The script reads an ini file once at startup.  The fields the core uses are
modelled directly; section lookups with `.get(key, default)` are modelled by
`Option`-valued functions. -/

/-- The configuration snapshot. -/
structure Config where
  /-- `config['general'].get('hostname', ...)`: optional hostname override. -/
  general_hostname : Option Str
  /-- Result of `socket.gethostname()`. -/
  system_hostname : Str
  /-- `config['w1sensors'].get(probe_id)`: per-probe mqtt id overrides. -/
  w1overrides : Str → Option Str
  /-- `config['bme680sensors'].items()`: (parsed hex i2c address, mqtt id)
  pairs in section order. -/
  bme680sensors : List (Nat × Str)

/-- The resolved default hostname (main.py:54 and main.py:121):
`config['general'].get('hostname', gethostname().split('.')[0])`.
`split('.')[0]` is the prefix of the system hostname before the first dot. -/
def hostname (cfg : Config) : Str :=
  cfg.general_hostname.getD (cfg.system_hostname.takeWhile (fun c => c ≠ '.'))

/-! ## Sensors

A discovered sensor of either family.  A `W1Sensor` stores its mqtt id and
the underlying probe's hardware id; a `BME680Sensor` stores its mqtt id and
its device handle, modelled as the driver behaviour (attempt index ↦ attempt
outcome). -/

/-- A constructed sensor instance. -/
inductive Sensor
  | w1 (mqtt_id : Str) (probe_id : Str)
  | bme (mqtt_id : Str) (driver : Nat → Attempt)

/-- The `mqtt_id` field assigned at construction (main.py:40, main.py:70). -/
def Sensor.mqtt_id : Sensor → Str
  | .w1 i _ => i
  | .bme i _ => i

/-! ## W1 discovery: `W1Sensor.create_sensors` (main.py:49-63) -/

/-- `W1Sensor.create_sensors`: if the one-wire module failed to import,
yield nothing.  With exactly one available probe, its mqtt id is the
`w1sensors` override for its hardware id, defaulting to the resolved
hostname; otherwise each probe's mqtt id is the override, defaulting to
`hostname_probeid` (main.py:56-63). -/
def w1_create_sensors (w1_available : Bool) (cfg : Config)
    (probe_ids : List Str) : List Sensor :=
  if w1_available then
    match probe_ids with
    | [pid] => [Sensor.w1 ((cfg.w1overrides pid).getD (hostname cfg)) pid]
    | _ =>
      probe_ids.map (fun pid =>
        Sensor.w1 ((cfg.w1overrides pid).getD (hostname cfg ++ '_' :: pid)) pid)
  else []

/-! ## I2C bus scan (main.py:106-112)

`smbus.SMBus(bus_id)` either returns a handle or raises `FileNotFoundError`;
the environment maps a bus index to `some handle` or `none`.  The loop body
assigns `i2c_device` only on success; a caught failure leaves the previous
value in place. -/

/-- The dual-bus scan: fold over bus indices 0 and 1 starting from `None`,
keeping the handle of each successful open. -/
def scan_i2c (env : Nat → Option Nat) : Option Nat :=
  [0, 1].foldl
    (fun acc bus_id => match env bus_id with
      | some h => some h
      | none => acc)
    none

/-! ## BME680 discovery: `BME680Sensor.create_sensors` (main.py:102-128)

Constructing a `BME680Sensor` runs the driver constructor `bme680.BME680`
plus fixed parameter setup, any of which may raise.  The hardware
environment maps the requested i2c address (`none` = the driver's default
address, used when no truthy address is given, main.py:72-75) to either a
constructed device (its driver behaviour) or an initialization error.
`OSError` is distinguished because main.py:124 catches exactly it. -/

/-- An initialization failure: an `OSError`, or any other exception. -/
inductive InitErr
  | osError
  | otherError
deriving DecidableEq

/-- The BME680 hardware environment: what constructing a device at a given
address yields. -/
def BMEEnv : Type := Option Nat → Except InitErr (Nat → Attempt)

/-- `BME680Sensor.__init__` (main.py:69-84): a truthy (nonzero) address is
passed through; a missing or zero address means the driver's default
address. -/
def bme_init (env : BMEEnv) (i2c_addr : Option Nat) :
    Except InitErr (Nat → Attempt) :=
  match i2c_addr with
  | some a => if a ≠ 0 then env (some a) else env none
  | none => env none

/-- The loop over `config['bme680sensors'].items()` (main.py:115-116):
construct one sensor per configured (address, mqtt id) pair, in section
order; any construction failure propagates. -/
def bme_create_explicit (env : BMEEnv) : List (Nat × Str) → Except InitErr (List Sensor)
  | [] => .ok []
  | (addr, mid) :: rest =>
    match bme_init env (some addr) with
    | .error e => .error e
    | .ok drv =>
      match bme_create_explicit env rest with
      | .error e => .error e
      | .ok ss => .ok (Sensor.bme mid drv :: ss)

/-- `BME680Sensor.create_sensors` (main.py:102-128): build the explicitly
configured sensors; if that leaves the list empty (the section was empty),
build one default-address sensor named after the resolved hostname,
swallowing an `OSError` (no device attached) but propagating anything
else. -/
def bme_create_sensors (cfg : Config) (env : BMEEnv) : Except InitErr (List Sensor) :=
  match bme_create_explicit env cfg.bme680sensors with
  | .error e => .error e
  | .ok sensors =>
    if sensors.isEmpty then
      match bme_init env none with
      | .ok drv => .ok [Sensor.bme (hostname cfg) drv]
      | .error .osError => .ok []
      | .error .otherError => .error .otherError
    else .ok sensors

/-! ## The main procedure (main.py:131-148) -/

/-- A fatal failure raised by `main` before the polling loop. -/
inductive MainErr
  | initFailure (e : InitErr)
  | noSensorsFound
deriving DecidableEq

/-- The startup phase of `main` (main.py:131-137): concatenate both
discovery results (BME680 first, then W1); raise
`Exception("No sensors found.")` if the combined list is empty. -/
def main_discover (cfg : Config) (env : BMEEnv) (w1_available : Bool)
    (probe_ids : List Str) : Except MainErr (List Sensor) :=
  match bme_create_sensors cfg env with
  | .error e => .error (.initFailure e)
  | .ok bmes =>
    let sensors := bmes ++ w1_create_sensors w1_available cfg probe_ids
    if sensors.isEmpty then .error .noSensorsFound else .ok sensors

/-- The readings of one sensor in one poll cycle (`sensor.topics_and_values`,
main.py:142).  `w1temp` gives each probe's `get_temperature()` result this
cycle. -/
def topics_and_values (tmpl : List FmtTok) (w1temp : Str → Int) :
    Sensor → List (Str × Int)
  | .w1 mid pid => [(topic_for_attribute tmpl mid tempAttr, w1temp pid)]
  | .bme mid drv => bme_topics_and_values tmpl mid drv

/-- `str(payload)` (main.py:143): decimal rendering of the value. -/
def strOfInt (v : Int) : Str := (toString v).toList

/-- The messages a single sensor contributes to the cycle's batch
(main.py:142-143). -/
def sensor_messages (tmpl : List FmtTok) (w1temp : Str → Int) (s : Sensor) :
    List (Str × Str) :=
  (topics_and_values tmpl w1temp s).map (fun tv => (tv.1, strOfInt tv.2))

/-- One polling cycle (main.py:140-147): flatten every sensor's readings
into one batch of (topic, payload) messages; publish the batch in a single
call if it is non-empty (`some batch`), otherwise make no publish call
(`none`). -/
def poll_cycle (tmpl : List FmtTok) (w1temp : Str → Int)
    (sensors : List Sensor) : Option (List (Str × Str)) :=
  let messages := (sensors.map (sensor_messages tmpl w1temp)).flatten
  if messages.isEmpty then none else some messages

/-- One poll of a single sensor together with the sensor state afterwards.
Reading a W1 probe does not touch the sensor object; reading a BME680
consumes acquisition attempts from its driver (`get_sensor_data` advances
the device state) but writes no field of the sensor object itself. -/
def poll_sensor_step (tmpl : List FmtTok) (w1temp : Str → Int) :
    Sensor → List (Str × Int) × Sensor
  | .w1 mid pid => ([(topic_for_attribute tmpl mid tempAttr, w1temp pid)], .w1 mid pid)
  | .bme mid drv =>
    let r := stabilize drv 0 attempts
    let calls := match r.1 with
      | some _ => r.2 + 1
      | none => attempts
    (bme_topics_and_values tmpl mid drv, .bme mid (fun n => drv (n + calls)))

/-! ## Lemmas -/

lemma countTok_pos {t : FmtTok} {tmpl : List FmtTok} (h : t ∈ tmpl) :
    0 < countTok t tmpl := by
  induction tmpl with
  | nil => cases h
  | cons x rest ih =>
    rcases List.mem_cons.mp h with h' | h'
    · subst h'; simp [countTok]
    · have := ih h'
      simp only [countTok]
      omega

lemma renderFmt_length (mqtt_id attr : Str) (tmpl : List FmtTok) :
    (renderFmt mqtt_id attr tmpl).length =
      litLen tmpl + countTok FmtTok.idTok tmpl * mqtt_id.length
        + countTok FmtTok.attrTok tmpl * attr.length := by
  induction tmpl with
  | nil => simp [renderFmt, litLen, countTok]
  | cons t rest ih =>
    cases t with
    | lit s =>
      simp only [renderFmt, renderTok, List.length_append, ih, litLen, countTok]
      simp only [reduceCtorEq, if_false]
      ring
    | idTok =>
      simp only [renderFmt, renderTok, List.length_append, ih, litLen, countTok]
      simp only [reduceCtorEq, if_false, if_true]
      ring
    | attrTok =>
      simp only [renderFmt, renderTok, List.length_append, ih, litLen, countTok]
      simp only [reduceCtorEq, if_false, if_true]
      ring

lemma renderFmt_inj_attr (mqtt_id : Str) :
    ∀ (tmpl : List FmtTok) (a1 a2 : Str), a1.length = a2.length →
      FmtTok.attrTok ∈ tmpl →
      renderFmt mqtt_id a1 tmpl = renderFmt mqtt_id a2 tmpl → a1 = a2 := by
  intro tmpl
  induction tmpl with
  | nil => intro a1 a2 _ hmem; cases hmem
  | cons t rest ih =>
    intro a1 a2 hlen hmem hr
    cases t with
    | lit s =>
      have hmem' : FmtTok.attrTok ∈ rest := by
        rcases List.mem_cons.mp hmem with h' | h'
        · cases h'
        · exact h'
      exact ih a1 a2 hlen hmem' (List.append_cancel_left hr)
    | idTok =>
      have hmem' : FmtTok.attrTok ∈ rest := by
        rcases List.mem_cons.mp hmem with h' | h'
        · cases h'
        · exact h'
      exact ih a1 a2 hlen hmem' (List.append_cancel_left hr)
    | attrTok =>
      exact (List.append_inj hr hlen).1

lemma renderFmt_inj_id (attr : Str) :
    ∀ (tmpl : List FmtTok) (i1 i2 : Str), i1.length = i2.length →
      FmtTok.idTok ∈ tmpl →
      renderFmt i1 attr tmpl = renderFmt i2 attr tmpl → i1 = i2 := by
  intro tmpl
  induction tmpl with
  | nil => intro i1 i2 _ hmem; cases hmem
  | cons t rest ih =>
    intro i1 i2 hlen hmem hr
    cases t with
    | lit s =>
      have hmem' : FmtTok.idTok ∈ rest := by
        rcases List.mem_cons.mp hmem with h' | h'
        · cases h'
        · exact h'
      exact ih i1 i2 hlen hmem' (List.append_cancel_left hr)
    | attrTok =>
      have hmem' : FmtTok.idTok ∈ rest := by
        rcases List.mem_cons.mp hmem with h' | h'
        · cases h'
        · exact h'
      exact ih i1 i2 hlen hmem' (List.append_cancel_left hr)
    | idTok =>
      exact (List.append_inj hr hlen).1

lemma renderFmt_len_attr {mqtt_id a1 a2 : Str} {tmpl : List FmtTok}
    (hmem : FmtTok.attrTok ∈ tmpl)
    (hr : renderFmt mqtt_id a1 tmpl = renderFmt mqtt_id a2 tmpl) :
    a1.length = a2.length := by
  have h1 := renderFmt_length mqtt_id a1 tmpl
  have h2 := renderFmt_length mqtt_id a2 tmpl
  rw [hr] at h1
  have hc := countTok_pos hmem
  have : countTok FmtTok.attrTok tmpl * a1.length
      = countTok FmtTok.attrTok tmpl * a2.length := by omega
  exact Nat.eq_of_mul_eq_mul_left hc this

lemma renderFmt_len_id {attr i1 i2 : Str} {tmpl : List FmtTok}
    (hmem : FmtTok.idTok ∈ tmpl)
    (hr : renderFmt i1 attr tmpl = renderFmt i2 attr tmpl) :
    i1.length = i2.length := by
  have h1 := renderFmt_length i1 attr tmpl
  have h2 := renderFmt_length i2 attr tmpl
  rw [hr] at h1
  have hc := countTok_pos hmem
  have : countTok FmtTok.idTok tmpl * i1.length
      = countTok FmtTok.idTok tmpl * i2.length := by omega
  exact Nat.eq_of_mul_eq_mul_left hc this

lemma stabilize_none_iff (driver : Nat → Attempt) :
    ∀ n k, (stabilize driver k n).1 = none ↔
      ∀ j, j < n → success (driver (k + j)) = false := by
  intro n
  induction n with
  | zero => intro k; simp [stabilize]
  | succ n ih =>
    intro k
    by_cases hs : success (driver k) = true
    · simp only [stabilize, hs, if_true]
      constructor
      · intro h; cases h
      · intro h
        have := h 0 (Nat.succ_pos n)
        rw [Nat.add_zero] at this
        rw [hs] at this
        cases this
    · have hs' : success (driver k) = false := by
        cases h : success (driver k)
        · rfl
        · exact absurd h hs
      simp only [stabilize, hs', Bool.false_eq_true, if_false]
      rw [ih (k + 1)]
      constructor
      · intro h j hj
        cases j with
        | zero => rw [Nat.add_zero]; exact hs'
        | succ j =>
          have hstep := h j (Nat.lt_of_succ_lt_succ hj)
          have e : k + 1 + j = k + (j + 1) := by omega
          rwa [e] at hstep
      · intro h j hj
        have hstep := h (j + 1) (Nat.succ_lt_succ hj)
        have e : k + (j + 1) = k + 1 + j := by omega
        rwa [e] at hstep

lemma stabilize_all_fail (driver : Nat → Attempt) :
    ∀ n k, (∀ j, j < n → success (driver (k + j)) = false) →
      stabilize driver k n = (none, n) := by
  intro n
  induction n with
  | zero => intro k _; rfl
  | succ n ih =>
    intro k h
    have h0 : success (driver k) = false := by
      have := h 0 (Nat.succ_pos n)
      rwa [Nat.add_zero] at this
    have hrest : ∀ j, j < n → success (driver (k + 1 + j)) = false := by
      intro j hj
      have hstep := h (j + 1) (Nat.succ_lt_succ hj)
      have e : k + (j + 1) = k + 1 + j := by omega
      rwa [e] at hstep
    simp only [stabilize, h0, Bool.false_eq_true, if_false, ih (k + 1) hrest]

lemma stabilize_first_success (driver : Nat → Attempt) :
    ∀ n k j, j < n → success (driver (k + j)) = true →
      (∀ i, i < j → success (driver (k + i)) = false) →
      stabilize driver k n = (some (driver (k + j)).data, j) := by
  intro n
  induction n with
  | zero => intro k j hj; cases hj
  | succ n ih =>
    intro k j hj hsucc hfirst
    cases j with
    | zero =>
      rw [Nat.add_zero] at hsucc
      simp only [stabilize, hsucc, if_true, Nat.add_zero]
    | succ j =>
      have h0 : success (driver k) = false := by
        have := hfirst 0 (Nat.succ_pos j)
        rwa [Nat.add_zero] at this
      have hshift : k + (j + 1) = (k + 1) + j := by omega
      have hsucc' : success (driver ((k + 1) + j)) = true := by rwa [hshift] at hsucc
      have hfirst' : ∀ i, i < j → success (driver ((k + 1) + i)) = false := by
        intro i hi
        have hstep := hfirst (i + 1) (Nat.succ_lt_succ hi)
        have e : k + (i + 1) = k + 1 + i := by omega
        rwa [e] at hstep
      have := ih (k + 1) j (Nat.lt_of_succ_lt_succ hj) hsucc' hfirst'
      simp only [stabilize, h0, Bool.false_eq_true, if_false, this, hshift]

lemma flatten_messages_eq_nil_iff (tmpl : List FmtTok) (w1temp : Str → Int)
    (sensors : List Sensor) :
    (sensors.map (sensor_messages tmpl w1temp)).flatten = [] ↔
      ∀ s ∈ sensors, topics_and_values tmpl w1temp s = [] := by
  rw [List.flatten_eq_nil_iff]
  constructor
  · intro h s hs
    exact List.map_eq_nil_iff.mp (h _ (List.mem_map_of_mem _ hs))
  · intro h l hl
    rcases List.mem_map.mp hl with ⟨s, hs, rfl⟩
    unfold sensor_messages
    rw [h s hs]
    rfl

lemma bme_create_explicit_ids (env : BMEEnv) :
    ∀ entries ss, bme_create_explicit env entries = .ok ss →
      ss.map Sensor.mqtt_id = entries.map Prod.snd := by
  intro entries
  induction entries with
  | nil =>
    intro ss h
    cases h
    rfl
  | cons hd rest ih =>
    obtain ⟨addr, mid⟩ := hd
    intro ss h
    rcases hinit : bme_init env (some addr) with e | drv
    · rw [bme_create_explicit, hinit] at h
      cases h
    · rcases hrest : bme_create_explicit env rest with e | tail
      · rw [bme_create_explicit, hinit, hrest] at h
        cases h
      · rw [bme_create_explicit, hinit, hrest] at h
        cases h
        simp [Sensor.mqtt_id, ih tail hrest]

lemma bme_create_explicit_error (env : BMEEnv) :
    ∀ pre addr mid post e,
      (∀ a m, (a, m) ∈ pre → ∃ d, bme_init env (some a) = .ok d) →
      bme_init env (some addr) = .error e →
      bme_create_explicit env (pre ++ (addr, mid) :: post) = .error e := by
  intro pre
  induction pre with
  | nil =>
    intro addr mid post e _ herr
    rw [List.nil_append, bme_create_explicit, herr]
  | cons hd rest ih =>
    intro addr mid post e hok herr
    obtain ⟨a, m⟩ := hd
    obtain ⟨d, hd'⟩ := hok a m (List.mem_cons_self _ _)
    have hrest := ih addr mid post e
      (fun a' m' hm => hok a' m' (List.mem_cons_of_mem _ hm)) herr
    rw [List.cons_append, bme_create_explicit, hd', hrest]

lemma bme_create_explicit_mem (env : BMEEnv) :
    ∀ entries ss, bme_create_explicit env entries = .ok ss →
      ∀ s ∈ ss, ∃ a, (a, s.mqtt_id) ∈ entries := by
  intro entries
  induction entries with
  | nil =>
    intro ss h s hs
    cases h
    cases hs
  | cons hd rest ih =>
    obtain ⟨addr, mid⟩ := hd
    intro ss h s hs
    rcases hinit : bme_init env (some addr) with e | drv
    · rw [bme_create_explicit, hinit] at h
      cases h
    · rcases hrest : bme_create_explicit env rest with e | tail
      · rw [bme_create_explicit, hinit, hrest] at h
        cases h
      · rw [bme_create_explicit, hinit, hrest] at h
        cases h
        rcases List.mem_cons.mp hs with h' | h'
        · subst h'
          exact ⟨addr, List.mem_cons_self _ _⟩
        · rcases ih tail hrest s h' with ⟨a, ha⟩
          exact ⟨a, List.mem_cons_of_mem _ ha⟩

lemma bme_create_mqtt_ids (cfg : Config) (env : BMEEnv) :
    ∀ ss, bme_create_sensors cfg env = .ok ss →
      ∀ s ∈ ss, (∃ a, (a, s.mqtt_id) ∈ cfg.bme680sensors) ∨ s.mqtt_id = hostname cfg := by
  intro ss h s hs
  rcases hex : bme_create_explicit env cfg.bme680sensors with e | sensors
  · rw [bme_create_sensors, hex] at h
    cases h
  · simp only [bme_create_sensors, hex] at h
    by_cases hemp : sensors.isEmpty
    · rw [if_pos hemp] at h
      rcases hinit : bme_init env none with e | drv
      · rcases e with _ | _
        · rw [hinit] at h
          cases h
          cases hs
        · rw [hinit] at h
          cases h
      · rw [hinit] at h
        cases h
        rcases List.mem_cons.mp hs with h' | h'
        · subst h'
          right
          rfl
        · cases h'
    · rw [if_neg hemp] at h
      cases h
      rcases bme_create_explicit_mem env cfg.bme680sensors ss hex s hs with ⟨a, ha⟩
      exact Or.inl ⟨a, ha⟩

lemma w1_create_mqtt_ids (w1_available : Bool) (cfg : Config) (probe_ids : List Str) :
    ∀ s ∈ w1_create_sensors w1_available cfg probe_ids,
      (∃ pid ov, cfg.w1overrides pid = some ov ∧ s.mqtt_id = ov) ∨
      s.mqtt_id = hostname cfg ∨
      ∃ pid, s.mqtt_id = hostname cfg ++ '_' :: pid := by
  intro s hs
  unfold w1_create_sensors at hs
  by_cases hw : w1_available
  · rw [if_pos hw] at hs
    rcases probe_ids with _ | ⟨p1, _ | ⟨p2, rest⟩⟩
    · cases hs
    · rcases List.mem_singleton.mp hs with rfl
      rcases hov : cfg.w1overrides p1 with _ | ov
      · right; left
        simp [Sensor.mqtt_id, hov]
      · left
        exact ⟨p1, ov, hov, by simp [Sensor.mqtt_id, hov]⟩
    · rcases List.mem_map.mp hs with ⟨pid, hpid, rfl⟩
      rcases hov : cfg.w1overrides pid with _ | ov
      · right; right
        exact ⟨pid, by simp [Sensor.mqtt_id, hov]⟩
      · left
        exact ⟨pid, ov, hov, by simp [Sensor.mqtt_id, hov]⟩
  · rw [if_neg hw] at hs
    cases hs

/-! ## Claim theorems -/

/-- C1: `readings()` of the environmental sensor returns an empty sequence
exactly when none of the up-to-60 acquisition attempts reports both data
present and the heat-stable flag; otherwise, at the first attempt index `j`
(0-based, so attempt `k = j + 1` with `1 ≤ k ≤ 60`, including `k = 60`) that
reports data present and stable, it stops retrying and returns exactly the
four (topic, value) pairs for temperature, humidity, pressure and
gas_resistance, all taken from that final acquisition's data registers. -/
theorem bme_readings_stabilization (tmpl : List FmtTok) (mqtt_id : Str)
    (driver : Nat → Attempt) :
    (bme_topics_and_values tmpl mqtt_id driver = [] ↔
      ∀ j, j < attempts → success (driver j) = false) ∧
    (∀ j, j < attempts → success (driver j) = true →
      (∀ i, i < j → success (driver i) = false) →
      bme_topics_and_values tmpl mqtt_id driver =
        [ (topic_for_attribute tmpl mqtt_id tempAttr, (driver j).data.temperature),
          (topic_for_attribute tmpl mqtt_id humAttr, (driver j).data.humidity),
          (topic_for_attribute tmpl mqtt_id presAttr, (driver j).data.pressure),
          (topic_for_attribute tmpl mqtt_id gasAttr, (driver j).data.gas_resistance) ]) := by
  have hiff := stabilize_none_iff driver attempts 0
  simp only [Nat.zero_add] at hiff
  constructor
  · constructor
    · intro h
      rw [← hiff]
      rcases hs : (stabilize driver 0 attempts).1 with _ | d
      · rfl
      · rw [bme_topics_and_values, hs] at h
        cases h
    · intro h
      have hn := hiff.mpr h
      rw [bme_topics_and_values, hn]
  · intro j hj hsucc hfirst
    have hfs := stabilize_first_success driver attempts 0 j hj
      (by simpa using hsucc) (fun i hi => by simpa using hfirst i hi)
    simp only [Nat.zero_add] at hfs
    rw [bme_topics_and_values, hfs]

/-- Witness for C1: a driver that is unstable on attempts 1-59 and reports
data present and stable on attempt 60 yields the four readings of that last
acquisition. -/
theorem bme_readings_stabilization_witness :
    bme_topics_and_values (FmtTok.idTok :: []) "x".toList
        (fun i => if i < 59 then ⟨true, ⟨false, 1, 2, 3, 4⟩⟩
                  else ⟨true, ⟨true, 10, 20, 30, 40⟩⟩) =
      [ (topic_for_attribute (FmtTok.idTok :: []) "x".toList tempAttr, 10),
        (topic_for_attribute (FmtTok.idTok :: []) "x".toList humAttr, 20),
        (topic_for_attribute (FmtTok.idTok :: []) "x".toList presAttr, 30),
        (topic_for_attribute (FmtTok.idTok :: []) "x".toList gasAttr, 40) ] :=
  (bme_readings_stabilization (FmtTok.idTok :: []) "x".toList
      (fun i => if i < 59 then ⟨true, ⟨false, 1, 2, 3, 4⟩⟩
                else ⟨true, ⟨true, 10, 20, 30, 40⟩⟩)).2
    59 (by decide) (by decide) (fun i hi => by simp [success, hi])

/-- C3 counterexample: with the template consisting of the id placeholder
immediately followed by the attribute placeholder, the distinct pairs
(id "ab", attribute "c") and (id "a", attribute "bc") substitute to the
same topic string "abc", so joint injectivity over all templates containing
both placeholders fails. -/
theorem topic_substitution_cex :
    FmtTok.idTok ∈ [FmtTok.idTok, FmtTok.attrTok] ∧
    FmtTok.attrTok ∈ [FmtTok.idTok, FmtTok.attrTok] ∧
    (("ab".toList, "c".toList) : Str × Str) ≠ ("a".toList, "bc".toList) ∧
    topic_for_attribute [FmtTok.idTok, FmtTok.attrTok] "ab".toList "c".toList =
      topic_for_attribute [FmtTok.idTok, FmtTok.attrTok] "a".toList "bc".toList := by
  decide

/-- C3 (amended): for every fixed template containing both the id and the
attribute placeholder, substitution is injective in each coordinate
separately: with the same id, distinct attributes produce distinct topics,
and with the same attribute, distinct ids produce distinct topics.  (Joint
injectivity over distinct (id, attribute) pairs fails, see the
counterexample.) -/
theorem topic_substitution_inj (tmpl : List FmtTok)
    (hid : FmtTok.idTok ∈ tmpl) (hattr : FmtTok.attrTok ∈ tmpl) :
    (∀ mqtt_id a1 a2,
      topic_for_attribute tmpl mqtt_id a1 = topic_for_attribute tmpl mqtt_id a2 →
      a1 = a2) ∧
    (∀ attr i1 i2,
      topic_for_attribute tmpl i1 attr = topic_for_attribute tmpl i2 attr →
      i1 = i2) := by
  constructor
  · intro mqtt_id a1 a2 h
    unfold topic_for_attribute at h
    exact renderFmt_inj_attr mqtt_id tmpl a1 a2 (renderFmt_len_attr hattr h) hattr h
  · intro attr i1 i2 h
    unfold topic_for_attribute at h
    exact renderFmt_inj_id attr tmpl i1 i2 (renderFmt_len_id hid h) hid h

/-- Witness for C3 (amended): on the template id-slash-attribute, the
attributes "a" and "b" with the same id give distinct topics. -/
theorem topic_substitution_inj_witness :
    topic_for_attribute [FmtTok.idTok, FmtTok.lit "/".toList, FmtTok.attrTok]
        "x".toList "a".toList ≠
      topic_for_attribute [FmtTok.idTok, FmtTok.lit "/".toList, FmtTok.attrTok]
        "x".toList "b".toList :=
  fun h =>
    absurd
      ((topic_substitution_inj [FmtTok.idTok, FmtTok.lit "/".toList, FmtTok.attrTok]
          (by decide) (by decide)).1 "x".toList "a".toList "b".toList h)
      (by decide)

/-- C8 counterexample: with a driver that never stabilizes, the 60-attempt
run performs 60 sleep(0.5) calls, not 59: the source sleeps after every
failed attempt, including the 60th, before the for-else returns the empty
list. -/
theorem bme_wait_count_cex :
    (stabilize (fun _ => ⟨true, ⟨false, 0, 0, 0, 0⟩⟩) 0 attempts).2 = 60 ∧
    ¬ (stabilize (fun _ => ⟨true, ⟨false, 0, 0, 0, 0⟩⟩) 0 attempts).2 = 59 := by
  decide

/-- C8 (amended): the 0.5 time-unit wait occurs after each failed attempt:
a run that first succeeds on attempt `k = j + 1` performs exactly `k - 1 = j`
waits, and a run in which all 60 attempts fail performs exactly 60 waits
(not 59), for a worst-case total wait of 60 x 0.5 = 30 time-units. -/
theorem bme_wait_count (driver : Nat → Attempt) :
    (∀ j, j < attempts → success (driver j) = true →
      (∀ i, i < j → success (driver i) = false) →
      (stabilize driver 0 attempts).2 = j) ∧
    ((∀ j, j < attempts → success (driver j) = false) →
      (stabilize driver 0 attempts).2 = attempts) := by
  constructor
  · intro j hj hsucc hfirst
    have hfs := stabilize_first_success driver attempts 0 j hj
      (by simpa using hsucc) (fun i hi => by simpa using hfirst i hi)
    rw [hfs]
  · intro h
    have haf := stabilize_all_fail driver attempts 0 (fun j hj => by simpa using h j hj)
    rw [haf]

/-- Witness for C8 (amended): a driver first stable on attempt 3 (index 2)
causes 2 waits; an always-failing driver causes 60 waits. -/
theorem bme_wait_count_witness :
    (stabilize (fun i => if i < 2 then ⟨true, ⟨false, 0, 0, 0, 0⟩⟩
                         else ⟨true, ⟨true, 0, 0, 0, 0⟩⟩) 0 attempts).2 = 2 ∧
    (stabilize (fun _ => ⟨false, ⟨true, 0, 0, 0, 0⟩⟩) 0 attempts).2 = attempts :=
  ⟨(bme_wait_count (fun i => if i < 2 then ⟨true, ⟨false, 0, 0, 0, 0⟩⟩
        else ⟨true, ⟨true, 0, 0, 0, 0⟩⟩)).1 2 (by decide) (by decide)
      (fun i hi => by simp [success, hi]),
   (bme_wait_count (fun _ => ⟨false, ⟨true, 0, 0, 0, 0⟩⟩)).2
      (fun j hj => by simp [success])⟩

/-- C2: W1-probe identity resolution.  A probe with an explicit `w1sensors`
entry gets that entry as its mqtt id, in both the single-probe and
multi-probe cases; without an override, a lone probe gets the resolved
hostname (the general-section override if present, else the first
dot-separated component of the system hostname), and with several probes
each one without an override gets `hostname_probeid`. -/
theorem w1_identity_resolution (cfg : Config) :
    (∀ pid ov, cfg.w1overrides pid = some ov →
      w1_create_sensors true cfg [pid] = [Sensor.w1 ov pid]) ∧
    (∀ pid, cfg.w1overrides pid = none →
      w1_create_sensors true cfg [pid] = [Sensor.w1 (hostname cfg) pid]) ∧
    (∀ h, cfg.general_hostname = some h → hostname cfg = h) ∧
    (cfg.general_hostname = none →
      hostname cfg = cfg.system_hostname.takeWhile (fun c => c ≠ '.')) ∧
    (∀ probe_ids, 2 ≤ probe_ids.length →
      w1_create_sensors true cfg probe_ids =
        probe_ids.map (fun pid =>
          Sensor.w1 ((cfg.w1overrides pid).getD (hostname cfg ++ '_' :: pid)) pid)) := by
  refine ⟨?_, ?_, ?_, ?_, ?_⟩
  · intro pid ov hov
    simp [w1_create_sensors, hov]
  · intro pid hov
    simp [w1_create_sensors, hov]
  · intro h hh
    simp [hostname, hh]
  · intro hh
    simp [hostname, hh]
  · intro probe_ids hlen
    rcases probe_ids with _ | ⟨p1, _ | ⟨p2, rest⟩⟩
    · simp at hlen
    · simp at hlen
    · rfl

/-- Witness for C2: with system hostname "pi1.local", no general override,
and a `w1sensors` override "living" for probe "28-aa" only: the lone probe
"28-aa" gets "living"; the lone probe "28-bb" gets "pi1"; the two-probe
topology gets "living" and "pi1_28-bb". -/
theorem w1_identity_resolution_witness :
    w1_create_sensors true
        ⟨none, "pi1.local".toList,
          (fun pid => if pid = "28-aa".toList then some "living".toList else none), []⟩
        ["28-aa".toList] =
      [Sensor.w1 "living".toList "28-aa".toList] ∧
    w1_create_sensors true
        ⟨none, "pi1.local".toList,
          (fun pid => if pid = "28-aa".toList then some "living".toList else none), []⟩
        ["28-bb".toList] =
      [Sensor.w1 "pi1".toList "28-bb".toList] ∧
    w1_create_sensors true
        ⟨none, "pi1.local".toList,
          (fun pid => if pid = "28-aa".toList then some "living".toList else none), []⟩
        ["28-aa".toList, "28-bb".toList] =
      [Sensor.w1 "living".toList "28-aa".toList,
       Sensor.w1 "pi1_28-bb".toList "28-bb".toList] := by
  refine ⟨?_, ?_, ?_⟩
  · exact (w1_identity_resolution _).1 "28-aa".toList "living".toList (by decide)
  · have h := (w1_identity_resolution
        ⟨none, "pi1.local".toList,
          (fun pid => if pid = "28-aa".toList then some "living".toList else none), []⟩).2.1
        "28-bb".toList (by decide)
    simpa using h
  · have h := (w1_identity_resolution
        ⟨none, "pi1.local".toList,
          (fun pid => if pid = "28-aa".toList then some "living".toList else none), []⟩).2.2.2.2
        ["28-aa".toList, "28-bb".toList] (by decide)
    simpa using h

/-- C4 counterexample: in the dual-bus scan, a device-not-found failure on
index 1 after a success on index 0 does NOT discard the index-0 handle: the
caught exception leaves the variable untouched, so the working index-0
handle (here handle 7) is kept and returned. -/
theorem i2c_scan_cex :
    (fun b => if b = 0 then some 7 else none : Nat → Option Nat) 0 = some 7 ∧
    (fun b => if b = 0 then some 7 else none : Nat → Option Nat) 1 = none ∧
    scan_i2c (fun b => if b = 0 then some 7 else none) = some 7 := by
  decide

/-- C4 (amended): discovery attempts to open bus indices 0 and 1, in that
order, tolerating a device-not-found failure on either index; the handle
kept is the one from whichever open call succeeded last: a success on
index 1 silently discards any index-0 handle, while a failure on index 1
after a success on index 0 leaves the working index-0 handle in place, and
when both opens fail no handle is kept. -/
theorem i2c_scan_last_success (env : Nat → Option Nat) :
    (∀ h1, env 1 = some h1 → scan_i2c env = some h1) ∧
    (∀ h0, env 0 = some h0 → env 1 = none → scan_i2c env = some h0) ∧
    (env 0 = none → env 1 = none → scan_i2c env = none) := by
  refine ⟨?_, ?_, ?_⟩
  · intro h1 he1
    simp [scan_i2c, he1]
  · intro h0 he0 he1
    simp [scan_i2c, he0, he1]
  · intro he0 he1
    simp [scan_i2c, he0, he1]

/-- Witness for C4 (amended): with successes on both indices the index-1
handle 9 wins; with a success only on index 0 the handle 5 is kept. -/
theorem i2c_scan_last_success_witness :
    scan_i2c (fun b => if b = 1 then some 9 else some 7) = some 9 ∧
    scan_i2c (fun b => if b = 0 then some 5 else none) = some 5 :=
  ⟨(i2c_scan_last_success (fun b => if b = 1 then some 9 else some 7)).1 9 (by decide),
   (i2c_scan_last_success (fun b => if b = 0 then some 5 else none)).2.1 5
      (by decide) (by decide)⟩

/-- C5: in every polling cycle, the publish collaborator is called exactly
once with the flattened batch when at least one sensor yielded at least one
reading (`poll_cycle = some batch`), and not at all when every sensor
yielded an empty sequence (`poll_cycle = none`); the batch is exactly the
flattened list of (topic, stringified value) pairs the sensors yielded, so
a sensor that yielded nothing contributes no placeholder entry. -/
theorem poll_cycle_publish (tmpl : List FmtTok) (w1temp : Str → Int)
    (sensors : List Sensor) :
    (poll_cycle tmpl w1temp sensors = none ↔
      ∀ s ∈ sensors, topics_and_values tmpl w1temp s = []) ∧
    (∀ batch, poll_cycle tmpl w1temp sensors = some batch →
      batch = (sensors.map (sensor_messages tmpl w1temp)).flatten ∧ batch ≠ []) := by
  have hpc : poll_cycle tmpl w1temp sensors =
      if ((sensors.map (sensor_messages tmpl w1temp)).flatten).isEmpty then none
      else some ((sensors.map (sensor_messages tmpl w1temp)).flatten) := rfl
  by_cases hemp : ((sensors.map (sensor_messages tmpl w1temp)).flatten).isEmpty
  · rw [if_pos hemp] at hpc
    have hnil : (sensors.map (sensor_messages tmpl w1temp)).flatten = [] :=
      List.isEmpty_iff.mp hemp
    constructor
    · rw [hpc]
      simp only [true_iff]
      exact (flatten_messages_eq_nil_iff tmpl w1temp sensors).mp hnil
    · intro batch hbatch
      rw [hpc] at hbatch
      cases hbatch
  · rw [if_neg hemp] at hpc
    have hnnil : (sensors.map (sensor_messages tmpl w1temp)).flatten ≠ [] := by
      intro hnil
      exact hemp (List.isEmpty_iff.mpr hnil)
    constructor
    · rw [hpc]
      simp only [reduceCtorEq, false_iff]
      intro hall
      exact hnnil ((flatten_messages_eq_nil_iff tmpl w1temp sensors).mpr hall)
    · intro batch hbatch
      rw [hpc] at hbatch
      injection hbatch with hb
      exact ⟨hb.symm, hb ▸ hnnil⟩

/-- Witness for C5: with one W1 sensor that reads 21 and one BME680 sensor
whose driver never stabilizes, exactly one publish call is made and the
batch holds only the W1 reading; with only the never-stable BME680 sensor,
no publish call is made. -/
theorem poll_cycle_publish_witness :
    poll_cycle (FmtTok.attrTok :: []) (fun _ => 21)
        [Sensor.w1 "a".toList "p".toList,
         Sensor.bme "b".toList (fun _ => ⟨true, ⟨false, 0, 0, 0, 0⟩⟩)] =
      some [(tempAttr, "21".toList)] ∧
    poll_cycle (FmtTok.attrTok :: []) (fun _ => 21)
        [Sensor.bme "b".toList (fun _ => ⟨true, ⟨false, 0, 0, 0, 0⟩⟩)] = none := by
  constructor
  · rfl
  · exact (poll_cycle_publish (FmtTok.attrTok :: []) (fun _ => 21)
        [Sensor.bme "b".toList (fun _ => ⟨true, ⟨false, 0, 0, 0, 0⟩⟩)]).1.mpr
      (fun s hs => by
        rcases List.mem_singleton.mp hs with rfl
        rfl)

/-- C6: if both discovery procedures together produce zero sensors, `main`
raises the fatal "No sensors found." failure before entering the polling
state, and the polling loop is never entered with an empty sensor set: a
successful startup always carries a non-empty sensor list. -/
theorem no_sensors_fatal (cfg : Config) (env : BMEEnv) (w1_available : Bool)
    (probe_ids : List Str) :
    (bme_create_sensors cfg env = .ok [] →
      w1_create_sensors w1_available cfg probe_ids = [] →
      main_discover cfg env w1_available probe_ids = .error .noSensorsFound) ∧
    (∀ ss, main_discover cfg env w1_available probe_ids = .ok ss → ss ≠ []) := by
  constructor
  · intro hb hw
    simp [main_discover, hb, hw]
  · intro ss hss
    rcases hbc : bme_create_sensors cfg env with e | bmes
    · rw [main_discover, hbc] at hss
      cases hss
    · simp only [main_discover, hbc] at hss
      by_cases hemp : (bmes ++ w1_create_sensors w1_available cfg probe_ids).isEmpty
      · rw [if_pos hemp] at hss
        cases hss
      · rw [if_neg hemp] at hss
        injection hss with hs
        intro hnil
        rw [hs, hnil] at hemp
        exact hemp rfl

/-- Witness for C6: empty BME680 config with no device at the default
address (OSError swallowed) and no one-wire support yields zero sensors, so
startup fails with the "No sensors found." error. -/
theorem no_sensors_fatal_witness :
    main_discover ⟨none, "h".toList, fun _ => none, []⟩
        (fun _ => .error .osError) false [] = .error .noSensorsFound :=
  (no_sensors_fatal ⟨none, "h".toList, fun _ => none, []⟩
      (fun _ => .error .osError) false []).1 rfl rfl

/-- C7: with an empty `bme680sensors` section, exactly one sensor is
constructed at the driver's default address with the resolved hostname as
its mqtt id; an OSError there is swallowed, yielding an empty result; any
other failure in the default path propagates; and a construction failure on
an explicitly configured (address, mqtt id) entry propagates (the entries
before it having succeeded). -/
theorem bme_discovery_default_path (cfg : Config) (env : BMEEnv) :
    (∀ drv, cfg.bme680sensors = [] → env none = .ok drv →
      bme_create_sensors cfg env = .ok [Sensor.bme (hostname cfg) drv]) ∧
    (cfg.bme680sensors = [] → env none = .error .osError →
      bme_create_sensors cfg env = .ok []) ∧
    (cfg.bme680sensors = [] → env none = .error .otherError →
      bme_create_sensors cfg env = .error .otherError) ∧
    (∀ pre addr mid post e, cfg.bme680sensors = pre ++ (addr, mid) :: post →
      (∀ a m, (a, m) ∈ pre → ∃ d, bme_init env (some a) = .ok d) →
      bme_init env (some addr) = .error e →
      bme_create_sensors cfg env = .error e) := by
  refine ⟨?_, ?_, ?_, ?_⟩
  · intro drv hsec henv
    simp [bme_create_sensors, hsec, bme_create_explicit, bme_init, henv]
  · intro hsec henv
    simp [bme_create_sensors, hsec, bme_create_explicit, bme_init, henv]
  · intro hsec henv
    simp [bme_create_sensors, hsec, bme_create_explicit, bme_init, henv]
  · intro pre addr mid post e hsec hok herr
    have hex := bme_create_explicit_error env pre addr mid post e hok herr
    rw [bme_create_sensors, hsec, hex]

/-- Witness for C7: with an empty section and a device answering at the
default address, discovery yields exactly the one default sensor named after
the hostname; with an OSError at the default address it yields zero sensors;
and an OSError on an explicitly configured address propagates. -/
theorem bme_discovery_default_path_witness :
    bme_create_sensors ⟨none, "pi.local".toList, fun _ => none, []⟩
        (fun _ => .ok (fun _ => ⟨false, ⟨false, 0, 0, 0, 0⟩⟩)) =
      .ok [Sensor.bme "pi".toList (fun _ => ⟨false, ⟨false, 0, 0, 0, 0⟩⟩)] ∧
    bme_create_sensors ⟨none, "pi.local".toList, fun _ => none, []⟩
        (fun _ => .error .osError) = .ok [] ∧
    bme_create_sensors ⟨none, "pi.local".toList, fun _ => none, [(118, "box".toList)]⟩
        (fun _ => .error .osError) = .error .osError :=
  ⟨(bme_discovery_default_path ⟨none, "pi.local".toList, fun _ => none, []⟩
      (fun _ => .ok (fun _ => ⟨false, ⟨false, 0, 0, 0, 0⟩⟩))).1
      (fun _ => ⟨false, ⟨false, 0, 0, 0, 0⟩⟩) rfl rfl,
   (bme_discovery_default_path ⟨none, "pi.local".toList, fun _ => none, []⟩
      (fun _ => .error .osError)).2.1 rfl rfl,
   (bme_discovery_default_path ⟨none, "pi.local".toList, fun _ => none,
        [(118, "box".toList)]⟩
      (fun _ => .error .osError)).2.2.2 [] 118 "box".toList [] .osError rfl
      (fun _ _ hm => absurd hm (List.not_mem_nil _)) rfl⟩

/-- C9 counterexample: the code never validates ids, so a configuration
whose `w1sensors` override for the lone probe is the empty string produces
a sensor whose mqtt id is empty, refuting the claim that the constructed
mqtt id is non-empty for every configuration. -/
theorem mqtt_id_nonempty_cex :
    (w1_create_sensors true ⟨none, "pi".toList, fun _ => some [], []⟩
        ["28-aa".toList]).map Sensor.mqtt_id = [[]] := by
  rfl

/-- C9 (amended): for every sensor of either variant, the mqtt id assigned
at construction is never reassigned or recomputed by a later poll-cycle
read (the per-cycle step leaves it unchanged, so it is stable for the
process lifetime); and it is non-empty provided the configured override
values, the configured BME680 ids and the resolved hostname are all
non-empty. -/
theorem mqtt_id_invariant (tmpl : List FmtTok) (w1temp : Str → Int) :
    (∀ s, (poll_sensor_step tmpl w1temp s).2.mqtt_id = s.mqtt_id) ∧
    (∀ cfg env w1_available probe_ids ss,
      main_discover cfg env w1_available probe_ids = .ok ss →
      (∀ pid ov, cfg.w1overrides pid = some ov → ov ≠ []) →
      (∀ a m, (a, m) ∈ cfg.bme680sensors → m ≠ []) →
      hostname cfg ≠ [] →
      ∀ s ∈ ss, s.mqtt_id ≠ []) := by
  constructor
  · intro s
    cases s with
    | w1 mid pid => rfl
    | bme mid drv => rfl
  · intro cfg env w1_available probe_ids ss hss hov hbme hhost s hs
    rcases hbc : bme_create_sensors cfg env with e | bmes
    · rw [main_discover, hbc] at hss
      cases hss
    · simp only [main_discover, hbc] at hss
      by_cases hemp : (bmes ++ w1_create_sensors w1_available cfg probe_ids).isEmpty
      · rw [if_pos hemp] at hss
        cases hss
      · rw [if_neg hemp] at hss
        injection hss with hs'
        rw [← hs'] at hs
        rcases List.mem_append.mp hs with hmem | hmem
        · rcases bme_create_mqtt_ids cfg env bmes hbc s hmem with ⟨a, ha⟩ | hh
          · exact hbme a s.mqtt_id ha
          · rw [hh]
            exact hhost
        · rcases w1_create_mqtt_ids w1_available cfg probe_ids s hmem with
            ⟨pid, ov, hov', heq⟩ | hh | ⟨pid, heq⟩
          · rw [heq]
            exact hov pid ov hov'
          · rw [hh]
            exact hhost
          · rw [heq]
            intro hnil
            rcases List.append_eq_nil.mp hnil with ⟨_, h2⟩
            cases h2

/-- Witness for C9 (amended): a discovered single-probe setup with a
non-empty override yields a sensor whose mqtt id "pi" is non-empty. -/
theorem mqtt_id_invariant_witness :
    Sensor.mqtt_id (Sensor.w1 "pi".toList "28-aa".toList) ≠ [] :=
  (mqtt_id_invariant [] (fun _ => 0)).2
    ⟨some "pi".toList, "x".toList, fun _ => none, []⟩
    (fun _ => .error .osError) true ["28-aa".toList]
    [Sensor.w1 "pi".toList "28-aa".toList] rfl
    (fun pid ov h => nomatch h)
    (fun a m hm => absurd hm (List.not_mem_nil _))
    (by decide)
    (Sensor.w1 "pi".toList "28-aa".toList) (List.mem_cons_self _ _)

/-- C10: in every poll cycle the published batch is deterministically
ordered: the environmental sensors' readings come first (the sensor list is
the BME680 discovery result, in configuration-section order, followed by
the W1 probes in enumeration order), each stabilized BME680 sensor
contributes its four readings in the fixed order temperature, humidity,
pressure, gas_resistance, and each payload is the decimal string rendering
of the read value. -/
theorem batch_ordering (tmpl : List FmtTok) (w1temp : Str → Int)
    (bmes w1s : List Sensor) :
    (∀ batch, poll_cycle tmpl w1temp (bmes ++ w1s) = some batch →
      batch = (bmes.map (sensor_messages tmpl w1temp)).flatten
        ++ (w1s.map (sensor_messages tmpl w1temp)).flatten) ∧
    (∀ mid drv j, j < attempts → success (drv j) = true →
      (∀ i, i < j → success (drv i) = false) →
      sensor_messages tmpl w1temp (Sensor.bme mid drv) =
        [ (topic_for_attribute tmpl mid tempAttr, strOfInt (drv j).data.temperature),
          (topic_for_attribute tmpl mid humAttr, strOfInt (drv j).data.humidity),
          (topic_for_attribute tmpl mid presAttr, strOfInt (drv j).data.pressure),
          (topic_for_attribute tmpl mid gasAttr, strOfInt (drv j).data.gas_resistance) ]) ∧
    (∀ cfg env, bme_create_sensors cfg env = .ok bmes → cfg.bme680sensors ≠ [] →
      bmes.map Sensor.mqtt_id = cfg.bme680sensors.map Prod.snd) := by
  refine ⟨?_, ?_, ?_⟩
  · intro batch hbatch
    have hpc : poll_cycle tmpl w1temp (bmes ++ w1s) =
        if (((bmes ++ w1s).map (sensor_messages tmpl w1temp)).flatten).isEmpty then none
        else some (((bmes ++ w1s).map (sensor_messages tmpl w1temp)).flatten) := rfl
    rw [hpc] at hbatch
    by_cases hemp : (((bmes ++ w1s).map (sensor_messages tmpl w1temp)).flatten).isEmpty
    · rw [if_pos hemp] at hbatch
      cases hbatch
    · rw [if_neg hemp] at hbatch
      injection hbatch with hb
      rw [← hb, List.map_append, List.flatten_append]
  · intro mid drv j hj hsucc hfirst
    have hfs := stabilize_first_success drv attempts 0 j hj
      (by simpa using hsucc) (fun i hi => by simpa using hfirst i hi)
    simp only [Nat.zero_add] at hfs
    simp only [sensor_messages, topics_and_values]
    rw [bme_topics_and_values, hfs]
    rfl
  · intro cfg env hok hne
    rcases hex : bme_create_explicit env cfg.bme680sensors with e | sensors
    · rw [bme_create_sensors, hex] at hok
      cases hok
    · simp only [bme_create_sensors, hex] at hok
      have hids := bme_create_explicit_ids env cfg.bme680sensors sensors hex
      by_cases hemp : sensors.isEmpty
      · have hsnil : sensors = [] := List.isEmpty_iff.mp hemp
        rw [hsnil] at hids
        rcases hcfg : cfg.bme680sensors with _ | ⟨hd, tl⟩
        · exact absurd hcfg hne
        · rw [hcfg] at hids
          cases hids
      · rw [if_neg hemp] at hok
        injection hok with hb
        rw [← hb]
        exact hids

/-- Witness for C10: one immediately-stable BME680 sensor followed by one
W1 probe publishes the four environmental readings first, in the order
temperature, humidity, pressure, gas_resistance, then the probe reading,
every payload rendered in decimal. -/
theorem batch_ordering_witness :
    sensor_messages (FmtTok.attrTok :: []) (fun _ => 21)
        (Sensor.bme "b".toList (fun _ => ⟨true, ⟨true, 1, 2, 3, 4⟩⟩)) =
      [ (topic_for_attribute (FmtTok.attrTok :: []) "b".toList tempAttr, strOfInt 1),
        (topic_for_attribute (FmtTok.attrTok :: []) "b".toList humAttr, strOfInt 2),
        (topic_for_attribute (FmtTok.attrTok :: []) "b".toList presAttr, strOfInt 3),
        (topic_for_attribute (FmtTok.attrTok :: []) "b".toList gasAttr, strOfInt 4) ] :=
  (batch_ordering (FmtTok.attrTok :: []) (fun _ => 21) [] []).2.1
    "b".toList (fun _ => ⟨true, ⟨true, 1, 2, 3, 4⟩⟩) 0 (by decide) (by decide)
    (fun i hi => absurd hi (Nat.not_lt_zero i))

end TempSensor
